import Mathlib

set_option autoImplicit false
set_option linter.unusedVariables false

/-!
Verification development for the XandrTool operator console
(src/XandrAPI.py). The Python source is shallowly embedded: each
network-touching function becomes a pure Lean function parametrised by an
oracle describing the remote API's responses, and every observable side
effect (HTTP requests issued, log records written, operator-visible
messages) is collected in an explicit trace.
-/

namespace XandrTool

/-- Base URL of the remote API (XANDR_BASE_URL in the source). -/
def baseUrl : String := "https://api.appnexus.com"

/-- One HTTP request as issued by the client: method, URL and the value
placed in the Authorization header (the bearer token). -/
structure Req where
  method : String
  url : String
  authorization : String
  deriving DecidableEq

/-- An operator-visible message: st.error, st.warning or st.success. -/
inductive Msg where
  | err (s : String)
  | warn (s : String)
  | good (s : String)
  deriving DecidableEq

/-- Result of running one embedded operation: its return value plus the
observable side effects (requests issued, log records, operator messages). -/
structure Trace (α : Type) where
  value : α
  requests : List Req
  logs : List String
  msgs : List Msg
  deriving DecidableEq

/-- A conversion pixel entry as it appears in a line item's pixels array
(data model of update_conversion_pixel): an id and a state string. -/
structure Pixel where
  id : Int
  state : String
  deriving DecidableEq

/-- Mirrors the loop at src/XandrAPI.py lines 117-123: walk the fetched
pixels array and set the state of the first entry whose id equals the
requested pixel id to "active" (then break); also report whether a
matching entry was found. -/
def markFirstActive : List Pixel → Int → List Pixel × Bool
  | [], _ => ([], false)
  | p :: rest, pid =>
    if p.id = pid then (Pixel.mk p.id "active" :: rest, true)
    else
      let r := markFirstActive rest pid
      (p :: r.1, r.2)

/-- Mirrors steps 2-3 of update_conversion_pixel (lines 112-130): mutate
the first matching entry in place; if no entry matched, append a fresh
entry with the requested id and state "active". -/
def upsertPixel (l : List Pixel) (pid : Int) : List Pixel :=
  let r := markFirstActive l pid
  if r.2 then r.1 else r.1 ++ [Pixel.mk pid "active"]

/-- Claim C7: with fetched pixel array [(id 5, state "inactive")],
requesting pixel id 5 produces exactly [(id 5, state "active")] (mutated
in place, not duplicated), while requesting pixel id 9 instead produces
the original entry followed by (id 9, state "active") appended. -/
theorem upsert_scenario_c7 :
    upsertPixel [Pixel.mk 5 "inactive"] 5 = [Pixel.mk 5 "active"] ∧
    upsertPixel [Pixel.mk 5 "inactive"] 9 =
      [Pixel.mk 5 "inactive", Pixel.mk 9 "active"] := by
  constructor <;> rfl

/-- Claim C4, counterexample: on a fetched pixel array that already holds
two entries with id 5, applying the upsert for id 5 twice still leaves two
entries with id 5 — the upsert never deduplicates pre-existing duplicate
ids, so the claim's "exactly one entry with that id" fails as stated. -/
theorem upsert_duplicate_ids_c4 :
    (upsertPixel (upsertPixel
        [Pixel.mk 5 "inactive", Pixel.mk 5 "inactive"] 5) 5).countP
      (fun p => p.id == 5) = 2 := by
  rfl

/-- Marking the first matching entry never changes the list of ids. -/
theorem markFirstActive_map_id (l : List Pixel) (pid : Int) :
    (markFirstActive l pid).1.map Pixel.id = l.map Pixel.id := by
  induction l with
  | nil => rfl
  | cons p rest ih =>
    by_cases h : p.id = pid <;> simp [markFirstActive, h, ih]

/-- The found flag of markFirstActive is membership of the id among the
fetched ids. -/
theorem markFirstActive_found (l : List Pixel) (pid : Int) :
    (markFirstActive l pid).2 = true ↔ pid ∈ l.map Pixel.id := by
  induction l with
  | nil => simp [markFirstActive]
  | cons p rest ih =>
    by_cases h : p.id = pid
    · simp [markFirstActive, h]
    · simp [markFirstActive, h, ih]
      intro hc
      exact absurd hc.symm h

/-- When no entry matched, markFirstActive leaves the list untouched. -/
theorem markFirstActive_not_found (l : List Pixel) (pid : Int)
    (h : (markFirstActive l pid).2 = false) :
    (markFirstActive l pid).1 = l := by
  induction l with
  | nil => rfl
  | cons p rest ih =>
    by_cases hp : p.id = pid
    · simp [markFirstActive, hp] at h
    · simp [markFirstActive, hp] at h ⊢
      exact ih h

/-- Upserting past a non-matching head just carries the head along. -/
theorem upsertPixel_cons_ne (p : Pixel) (rest : List Pixel) (pid : Int)
    (h : p.id ≠ pid) :
    upsertPixel (p :: rest) pid = p :: upsertPixel rest pid := by
  by_cases hf : (markFirstActive rest pid).2 = true <;>
    simp [upsertPixel, markFirstActive, h, hf]

/-- After an upsert, searching again always finds the id and changes
nothing: the list produced by upsertPixel is a fixed point of
markFirstActive for that id. -/
theorem markFirstActive_upsertPixel (l : List Pixel) (pid : Int) :
    markFirstActive (upsertPixel l pid) pid = (upsertPixel l pid, true) := by
  induction l with
  | nil => simp [upsertPixel, markFirstActive]
  | cons p rest ih =>
    by_cases h : p.id = pid
    · simp [upsertPixel, markFirstActive, h]
    · rw [upsertPixel_cons_ne p rest pid h]
      simp [markFirstActive, h, ih]

/-- The pixel upsert is idempotent on any fetched array. -/
theorem upsertPixel_idem (l : List Pixel) (pid : Int) :
    upsertPixel (upsertPixel l pid) pid = upsertPixel l pid := by
  have h := markFirstActive_upsertPixel l pid
  set m := upsertPixel l pid with hm
  simp [upsertPixel, h]

/-- Entries whose id is absent from a list are not produced by filtering
that list for the id. -/
theorem filter_eq_nil_of_not_mem (l : List Pixel) (pid : Int)
    (h : pid ∉ l.map Pixel.id) :
    l.filter (fun p => p.id == pid) = [] := by
  induction l with
  | nil => rfl
  | cons p rest ih =>
    rw [List.map_cons, List.mem_cons] at h
    push_neg at h
    have hp : (p.id == pid) = false := by
      simp only [beq_eq_false_iff_ne]
      intro hc
      exact h.1 hc.symm
    simp [List.filter_cons, hp, ih h.2]

/-- On a fetched array with pairwise distinct ids, one upsert leaves
exactly the single entry (pid, "active") among entries carrying pid. -/
theorem upsertPixel_filter_eq (l : List Pixel) (pid : Int)
    (h : (l.map Pixel.id).Nodup) :
    (upsertPixel l pid).filter (fun p => p.id == pid) =
      [Pixel.mk pid "active"] := by
  induction l with
  | nil => simp [upsertPixel, markFirstActive, List.filter]
  | cons p rest ih =>
    rw [List.map_cons, List.nodup_cons] at h
    by_cases hp : p.id = pid
    · have hu : upsertPixel (p :: rest) pid = Pixel.mk p.id "active" :: rest := by
        simp [upsertPixel, markFirstActive, hp]
      rw [hu, hp]
      have hrest : rest.filter (fun q => q.id == pid) = [] := by
        apply filter_eq_nil_of_not_mem
        rw [← hp]
        exact h.1
      simp [List.filter_cons, hrest]
    · rw [upsertPixel_cons_ne p rest pid hp]
      have hpf : (p.id == pid) = false := by
        simp only [beq_eq_false_iff_ne]
        exact hp
      simp [List.filter_cons, hpf, ih h.2]

/-- An upsert never introduces a duplicate id when the fetched ids were
pairwise distinct. -/
theorem upsertPixel_nodup (l : List Pixel) (pid : Int)
    (h : (l.map Pixel.id).Nodup) :
    ((upsertPixel l pid).map Pixel.id).Nodup := by
  by_cases hf : (markFirstActive l pid).2 = true
  · simp [upsertPixel, hf, markFirstActive_map_id, h]
  · have hnm : pid ∉ l.map Pixel.id := by
      rw [← markFirstActive_found l pid]
      simp [hf]
    have he : (markFirstActive l pid).1 = l :=
      markFirstActive_not_found l pid (by simpa using hf)
    simp [upsertPixel, hf, he, List.nodup_append, h, List.disjoint_singleton,
      hnm]

/-- Claim C4, amended: on a fetched pixel array whose ids are pairwise
distinct, applying the upsert twice with the same id yields exactly one
entry with that id, in state "active"; the upsert is idempotent and the
resulting array again has pairwise distinct ids (never two entries with
the same id). -/
theorem upsert_unique_c4 (l : List Pixel) (pid : Int)
    (h : (l.map Pixel.id).Nodup) :
    (upsertPixel (upsertPixel l pid) pid).filter (fun p => p.id == pid) =
      [Pixel.mk pid "active"] ∧
    upsertPixel (upsertPixel l pid) pid = upsertPixel l pid ∧
    ((upsertPixel (upsertPixel l pid) pid).map Pixel.id).Nodup := by
  refine ⟨?_, upsertPixel_idem l pid, ?_⟩
  · rw [upsertPixel_idem l pid]
    exact upsertPixel_filter_eq l pid h
  · rw [upsertPixel_idem l pid]
    exact upsertPixel_nodup l pid h

/-- Witness for C4 at a concrete distinct-id array. -/
theorem upsert_unique_c4_witness :
    (upsertPixel (upsertPixel [Pixel.mk 5 "inactive", Pixel.mk 7 "active"] 5)
        5).filter (fun p => p.id == 5) = [Pixel.mk 5 "active"] ∧
    upsertPixel (upsertPixel [Pixel.mk 5 "inactive", Pixel.mk 7 "active"] 5) 5 =
      upsertPixel [Pixel.mk 5 "inactive", Pixel.mk 7 "active"] 5 ∧
    ((upsertPixel (upsertPixel [Pixel.mk 5 "inactive", Pixel.mk 7 "active"] 5)
        5).map Pixel.id).Nodup :=
  upsert_unique_c4 [Pixel.mk 5 "inactive", Pixel.mk 7 "active"] 5 (by decide)

/-- Marking the first matching entry preserves the length. -/
theorem markFirstActive_length (l : List Pixel) (pid : Int) :
    (markFirstActive l pid).1.length = l.length := by
  have h := congrArg List.length (markFirstActive_map_id l pid)
  simpa using h

/-- Entries whose id differs from the requested id are untouched by the
upsert: filtering them out of the result gives exactly the same list, in
the same order, as filtering them out of the input. -/
theorem upsertPixel_filter_ne (l : List Pixel) (pid : Int) :
    (upsertPixel l pid).filter (fun p => p.id != pid) =
      l.filter (fun p => p.id != pid) := by
  induction l with
  | nil => simp [upsertPixel, markFirstActive, List.filter]
  | cons p rest ih =>
    by_cases hp : p.id = pid
    · have hu : upsertPixel (p :: rest) pid = Pixel.mk p.id "active" :: rest := by
        simp [upsertPixel, markFirstActive, hp]
      rw [hu]
      have hpf : (p.id != pid) = false := by
        simp [bne, hp]
      simp [List.filter_cons, hpf]
    · rw [upsertPixel_cons_ne p rest pid hp]
      have hpt : (p.id != pid) = true := by
        simp [bne, hp]
      simp [List.filter_cons, hpt, ih]

/-- The upsert grows the array by zero entries (match found) or exactly one
appended entry (no match). -/
theorem upsertPixel_length (l : List Pixel) (pid : Int) :
    (upsertPixel l pid).length = l.length ∨
      upsertPixel l pid = l ++ [Pixel.mk pid "active"] := by
  by_cases hf : (markFirstActive l pid).2 = true
  · left
    simp [upsertPixel, hf, markFirstActive_length]
  · right
    have he : (markFirstActive l pid).1 = l :=
      markFirstActive_not_found l pid (by simpa using hf)
    simp [upsertPixel, hf, he]

/-- Positions holding a non-matching entry are untouched by the upsert. -/
theorem upsertPixel_get_ne (l : List Pixel) (pid : Int) :
    ∀ i (hi : i < l.length), (l.get ⟨i, hi⟩).id ≠ pid →
      ∃ hj : i < (upsertPixel l pid).length,
        (upsertPixel l pid).get ⟨i, hj⟩ = l.get ⟨i, hi⟩ := by
  induction l with
  | nil =>
    intro i hi
    exact absurd hi (by simp)
  | cons p rest ih =>
    intro i hi hne
    by_cases hp : p.id = pid
    · have hu : upsertPixel (p :: rest) pid = Pixel.mk p.id "active" :: rest := by
        simp [upsertPixel, markFirstActive, hp]
      match i with
      | 0 =>
        exact absurd hp (by simpa using hne)
      | Nat.succ j =>
        have hj : j < rest.length := Nat.lt_of_succ_lt_succ (by simpa using hi)
        refine ⟨by simpa [hu] using Nat.succ_lt_succ hj, ?_⟩
        simp [hu]
    · rw [upsertPixel_cons_ne p rest pid hp]
      match i with
      | 0 =>
        exact ⟨by simp, by simp⟩
      | Nat.succ j =>
        have hj : j < rest.length := Nat.lt_of_succ_lt_succ (by simpa using hi)
        have hne2 : (rest.get ⟨j, hj⟩).id ≠ pid := by simpa using hne
        obtain ⟨hj2, hget⟩ := ih j hj hne2
        refine ⟨by simpa using Nat.succ_lt_succ hj2, ?_⟩
        simpa using hget

/-- Claim C10, frame property of the pixel upsert: every fetched entry
whose id differs from the requested pixel id appears in the PUT pixels
array unchanged, in the same relative order and at the same position;
the array grows by at most one entry, and when it grows, the result is
exactly the fetched array with (pid, "active") appended at the end. -/
theorem upsert_frame_c10 (l : List Pixel) (pid : Int) :
    (upsertPixel l pid).filter (fun p => p.id != pid) =
        l.filter (fun p => p.id != pid) ∧
    (∀ i (hi : i < l.length), (l.get ⟨i, hi⟩).id ≠ pid →
      ∃ hj : i < (upsertPixel l pid).length,
        (upsertPixel l pid).get ⟨i, hj⟩ = l.get ⟨i, hi⟩) ∧
    ((upsertPixel l pid).length = l.length ∨
      upsertPixel l pid = l ++ [Pixel.mk pid "active"]) :=
  ⟨upsertPixel_filter_ne l pid, upsertPixel_get_ne l pid,
    upsertPixel_length l pid⟩

/-- Witness for C10 at a concrete array: the non-matching entry (id 7) is
untouched and in place after upserting id 5. -/
theorem upsert_frame_c10_witness :
    (upsertPixel [Pixel.mk 7 "inactive", Pixel.mk 5 "paused"] 5).filter
        (fun p => p.id != 5) =
      [Pixel.mk 7 "inactive", Pixel.mk 5 "paused"].filter
        (fun p => p.id != 5) ∧
    ∃ hj : 0 < (upsertPixel [Pixel.mk 7 "inactive", Pixel.mk 5 "paused"]
        5).length,
      (upsertPixel [Pixel.mk 7 "inactive", Pixel.mk 5 "paused"] 5).get
        ⟨0, hj⟩ = Pixel.mk 7 "inactive" :=
  ⟨(upsert_frame_c10 [Pixel.mk 7 "inactive", Pixel.mk 5 "paused"] 5).1,
    (upsert_frame_c10 [Pixel.mk 7 "inactive", Pixel.mk 5 "paused"] 5).2.1 0
      (by decide) (by decide)⟩

/-- A geographic targeting unit as returned by get_cities_for_country:
the id and name fields extracted from a city record. -/
structure CityTarget where
  id : Int
  name : String
  deriving DecidableEq

/-- What one invocation of a retry-wrapped function body does: return a
boolean (the source functions return True or False) or let an uncaught
exception escape. -/
inductive BodyOut where
  | ret (b : Bool)
  | raised (e : String)
  deriving DecidableEq

/-- Environment's answer to the line-item GET inside
update_conversion_pixel: a transport failure (requests raises, optionally
carrying a response body), a body that fails JSON parsing (ValueError —
NOT caught by the except clause, which catches only RequestException), or
parsed JSON. okJson none models a body missing the response/line-item
keys; okJson (some px) models a well-formed body whose pixels array
(defaulted to [] when absent) is px, rendered as the raw string. -/
inductive LineItemGet where
  | transportFail (e : String) (respText : Option String)
  | invalidJson (e : String)
  | okJson (shape : Option (List Pixel)) (raw : String)
  deriving DecidableEq

/-- Environment's answer to the PUT inside update_conversion_pixel. -/
inductive PutResult where
  | ok (raw : String)
  | transportFail (e : String) (respText : Option String)
  | invalidJson (e : String)
  deriving DecidableEq

/-- Environment's answer to the PUT inside update_line_item_profile_geo
(no .json() call there, so no invalid-JSON case). -/
inductive GeoPutResult where
  | ok
  | transportFail (e : String)
  deriving DecidableEq

/-- Rendering of one pixel entry in log records. -/
def renderPixel (p : Pixel) : String :=
  "(id " ++ toString p.id ++ ", state " ++ p.state ++ ")"

/-- Rendering of a pixels array in log records. -/
def renderPixels (l : List Pixel) : String :=
  "[" ++ String.intercalate ", " (l.map renderPixel) ++ "]"

/-- One invocation of the body of update_conversion_pixel
(src/XandrAPI.py lines 88-156): GET the line item, validate the shape,
upsert the requested pixel into the pixels array, PUT the array back.
Transport failures are caught and turned into a returned False; JSON
parse failures escape as raised exceptions. -/
def updateConversionPixel (token : String)
    (advertiserId lineItemId pixelId : Int)
    (getRes : LineItemGet) (putRes : PutResult) : Trace BodyOut :=
  let url := baseUrl ++ "/line-item?id=" ++ toString lineItemId ++
    "&advertiser_id=" ++ toString advertiserId
  let getReq := Req.mk "GET" url token
  let failLogs := fun (e : String) (respText : Option String)
      (pre : List String) =>
    pre ++
      (match respText with
       | some t => ["API Error Response: " ++ t]
       | none => []) ++
      ["Error updating conversion pixel for Line Item ID " ++
        toString lineItemId ++ ": " ++ e]
  let failMsg := fun (e : String) =>
    [Msg.err ("Error updating conversion pixel for Line Item ID " ++
      toString lineItemId ++ ": " ++ e)]
  match getRes with
  | LineItemGet.transportFail e respText =>
    ⟨BodyOut.ret false, [getReq],
      failLogs e respText ["GET Request URL: " ++ url], failMsg e⟩
  | LineItemGet.invalidJson e =>
    ⟨BodyOut.raised e, [getReq], ["GET Request URL: " ++ url], []⟩
  | LineItemGet.okJson shape raw =>
    match shape with
    | none =>
      ⟨BodyOut.ret false, [getReq],
        ["GET Request URL: " ++ url,
         "GET Response for Line Item ID " ++ toString lineItemId ++ ": " ++
           raw,
         "Unexpected API response: " ++ raw],
        [Msg.err ("Unexpected API response structure for Line Item ID: " ++
          toString lineItemId ++ ".")]⟩
    | some px =>
      let newPixels := upsertPixel px pixelId
      let payload := "line-item (id " ++ toString lineItemId ++
        ", pixels " ++ renderPixels newPixels ++ ")"
      let putReq := Req.mk "PUT" url token
      let preLogs := ["GET Request URL: " ++ url,
        "GET Response for Line Item ID " ++ toString lineItemId ++ ": " ++
          raw,
        "Existing Pixels for Line Item ID " ++ toString lineItemId ++
          ": " ++ renderPixels px,
        "PUT Request URL: " ++ url,
        "PUT Request Payload: " ++ payload]
      match putRes with
      | PutResult.ok praw =>
        ⟨BodyOut.ret true, [getReq, putReq],
          preLogs ++ ["PUT Response for Line Item ID " ++
            toString lineItemId ++ ": " ++ praw], []⟩
      | PutResult.transportFail e respText =>
        ⟨BodyOut.ret false, [getReq, putReq],
          failLogs e respText preLogs, failMsg e⟩
      | PutResult.invalidJson e =>
        ⟨BodyOut.raised e, [getReq, putReq], preLogs, []⟩

/-- One invocation of the body of update_line_item_profile_geo
(src/XandrAPI.py lines 66-85): one PUT of the city-target list onto the
profile; a transport failure is caught, reported and returned as False. -/
def updateLineItemProfileGeo (token : String) (profileId : Int)
    (cityTargets : List CityTarget) (putRes : GeoPutResult) :
    Trace BodyOut :=
  let url := baseUrl ++ "/profile?id=" ++ toString profileId
  let putReq := Req.mk "PUT" url token
  match putRes with
  | GeoPutResult.ok => ⟨BodyOut.ret true, [putReq], [], []⟩
  | GeoPutResult.transportFail e =>
    ⟨BodyOut.ret false, [putReq],
      ["Error updating geo targeting for profile ID " ++
        toString profileId ++ ": " ++ e],
      [Msg.err ("Error updating geo targeting for profile ID " ++
        toString profileId ++ ": " ++ e)]⟩

/-- The tenacity retry decorator with stop_after_attempt: invoke the body;
a returned value ends the call, a raised exception consumes one attempt
and the body is re-invoked, up to the attempt budget; the last failure
surfaces to the caller. The first argument of the body is the attempt
index. -/
def tenacityTrace (body : Nat → Trace BodyOut) : Nat → Nat → Trace BodyOut
  | 0, _ => ⟨BodyOut.raised "RetryError", [], [], []⟩
  | n + 1, k =>
    let t := body k
    match t.value, n with
    | BodyOut.ret _, _ => t
    | BodyOut.raised _, 0 => t
    | BodyOut.raised _, m + 1 =>
      let r := tenacityTrace body (m + 1) (k + 1)
      ⟨r.value, t.requests ++ r.requests, t.logs ++ r.logs, t.msgs ++ r.msgs⟩

/-- stop_after_attempt(3) in both retry decorators. -/
def attemptLimit : Nat := 3

/-- The retry-decorated geo mutator, as called by the batch loop. -/
def retriedGeoUpdate (token : String) (profileId : Int)
    (cityTargets : List CityTarget) (oracle : Nat → GeoPutResult) :
    Trace BodyOut :=
  tenacityTrace
    (fun k => updateLineItemProfileGeo token profileId cityTargets
      (oracle k)) attemptLimit 0

/-- The retry-decorated conversion-pixel mutator. -/
def retriedPixelUpdate (token : String)
    (advertiserId lineItemId pixelId : Int)
    (getOracle : Nat → LineItemGet) (putOracle : Nat → PutResult) :
    Trace BodyOut :=
  tenacityTrace
    (fun k => updateConversionPixel token advertiserId lineItemId pixelId
      (getOracle k) (putOracle k)) attemptLimit 0

/-- A geo PUT environment whose first two attempts fail with a transport
error and whose third would succeed. -/
def geoFailTwice : Nat → GeoPutResult := fun k =>
  if k < 2 then GeoPutResult.transportFail "connection reset"
  else GeoPutResult.ok

/-- A line-item GET environment whose first two attempts fail with a
transport error and whose third would succeed. -/
def pixelGetFailTwice : Nat → LineItemGet := fun k =>
  if k < 2 then LineItemGet.transportFail "connection reset" none
  else LineItemGet.okJson (some []) "ok"

/-- A PUT environment that always succeeds. -/
def pixelPutAlwaysOk : Nat → PutResult := fun _ => PutResult.ok "ok"

/-- Claim C1, evaluated at the failing input (code bug): the retry
wrapper itself would make 3 calls when the body raises twice and then
returns (first conjuncts), but both mutating bodies catch the transport
exception and return False, so with two transport failures followed by a
would-be success the wrapped call ends after exactly ONE HTTP request,
returning the failure — not 3 calls and success as the claim states. -/
theorem retry_defeated_c1 :
    (tenacityTrace
        (fun k => Trace.mk
          (if k < 2 then BodyOut.raised "connection reset"
           else BodyOut.ret true)
          [Req.mk "PUT" (baseUrl ++ "/profile?id=7") "tok"] [] [])
        attemptLimit 0).value = BodyOut.ret true ∧
    (tenacityTrace
        (fun k => Trace.mk
          (if k < 2 then BodyOut.raised "connection reset"
           else BodyOut.ret true)
          [Req.mk "PUT" (baseUrl ++ "/profile?id=7") "tok"] [] [])
        attemptLimit 0).requests.length = 3 ∧
    (retriedGeoUpdate "tok" 7 [] geoFailTwice).value = BodyOut.ret false ∧
    (retriedGeoUpdate "tok" 7 [] geoFailTwice).requests.length = 1 ∧
    (retriedPixelUpdate "tok" 1 2 3 pixelGetFailTwice
        pixelPutAlwaysOk).value = BodyOut.ret false ∧
    (retriedPixelUpdate "tok" 1 2 3 pixelGetFailTwice
        pixelPutAlwaysOk).requests.length = 1 := by
  refine ⟨rfl, rfl, rfl, rfl, rfl, rfl⟩

/-- Environment's answer to one call of make_api_request (lines 18-30):
the request raised (RequestException), the 2xx body failed to parse
(ValueError), or a parsed JSON value was returned. Both failure cases
make make_api_request return None after reporting. -/
inductive ApiAnswer (α : Type) where
  | transportFail (e : String)
  | invalidJson (e : String)
  | parsed (v : α) (raw : String)
  deriving DecidableEq

/-- Messages and logs emitted inside make_api_request for a failing call;
the parsed case emits nothing at this layer. -/
def makeApiRequestFailReport (e : String) (invalid : Bool) :
    List String × List Msg :=
  if invalid then
    (["Invalid JSON response: " ++ e], [Msg.err ("Invalid JSON response: " ++ e)])
  else
    (["API request failed: " ++ e], [Msg.err ("API request failed: " ++ e)])

/-- Python str.lower applied character-wise (ASCII case folding), as used
on country names; structurally recursive over the character list. -/
def pyLower (s : String) : String := String.mk (s.data.map Char.toLower)

/-- Python str.strip with no argument: remove leading and trailing
whitespace; structurally recursive over the character list. -/
def pyStrip (s : String) : String :=
  String.mk
    (((s.data.dropWhile Char.isWhitespace).reverse.dropWhile
      Char.isWhitespace).reverse)

/-- A raw city record as found in response.cities: the fields the source
reads. -/
structure CityRec where
  id : Int
  name : String
  country_name : String
  deriving DecidableEq

/-- Parsed shape of the /city response body: none models a body missing
the response/cities keys, some cs a well-formed body listing cs. -/
abbrev CityBody : Type := Option (List CityRec)

/-- get_cities_for_country (src/XandrAPI.py lines 32-63): GET /city
filtered to active cities, validate the shape, then keep id and name of
every city whose trimmed, lowercased country_name equals the trimmed,
lowercased requested country. A transport/parse failure, a malformed
shape and an empty filter result all return none; they differ only in the
message emitted (error vs warning). -/
def getCitiesForCountry (token countryName : String)
    (answer : ApiAnswer CityBody) : Trace (Option (List CityTarget)) :=
  let url := baseUrl ++ "/city?active=true"
  let req := Req.mk "GET" url token
  match answer with
  | ApiAnswer.transportFail e =>
    let r := makeApiRequestFailReport e false
    ⟨none, [req], r.1, r.2⟩
  | ApiAnswer.invalidJson e =>
    let r := makeApiRequestFailReport e true
    ⟨none, [req], r.1, r.2⟩
  | ApiAnswer.parsed shape raw =>
    match shape with
    | none =>
      ⟨none, [req], ["Unexpected API response: " ++ raw],
        [Msg.err ("Unexpected API response structure when fetching cities for " ++
          countryName ++ ".")]⟩
    | some cs =>
      let filtered := (cs.filter (fun c =>
          pyLower (pyStrip c.country_name) ==
            pyLower (pyStrip countryName))).map
        (fun c => CityTarget.mk c.id c.name)
      if filtered.isEmpty then
        ⟨none, [req], [],
          [Msg.warn ("No active cities found for country: " ++ countryName ++
            ".")]⟩
      else
        ⟨some filtered, [req], [], []⟩

/-- Parsed shape of the /line-item response body as read by
get_profile_id_for_line_item: none models a body missing the
response/line-item keys, some pid a well-formed body carrying profile_id. -/
abbrev ProfileBody : Type := Option Int

/-- get_profile_id_for_line_item (src/XandrAPI.py lines 175-189): GET the
line item and extract its profile_id after shape validation. -/
def getProfileIdForLineItem (token : String) (lineItemId : Int)
    (answer : ApiAnswer ProfileBody) : Trace (Option Int) :=
  let url := baseUrl ++ "/line-item?id=" ++ toString lineItemId
  let req := Req.mk "GET" url token
  match answer with
  | ApiAnswer.transportFail e =>
    let r := makeApiRequestFailReport e false
    ⟨none, [req], r.1, r.2⟩
  | ApiAnswer.invalidJson e =>
    let r := makeApiRequestFailReport e true
    ⟨none, [req], r.1, r.2⟩
  | ApiAnswer.parsed shape raw =>
    match shape with
    | none =>
      ⟨none, [req], ["Unexpected API response: " ++ raw],
        [Msg.err ("Unexpected API response structure for line item ID: " ++
          toString lineItemId ++ ".")]⟩
    | some pid => ⟨some pid, [req], [], []⟩

/-- The geo-targeting batch loop (src/XandrAPI.py lines 395-405): for each
line item id, resolve its profile id; on a falsy result (None, or 0 —
Python's `if not profile_id`) report a per-item failure and continue;
otherwise invoke the retry-wrapped geo mutator and report the item's
success or failure. Per-item environments: lookup gives each line item's
profile answer, putOracle gives each line item's PUT answers by attempt. -/
def geoBatch (token : String) (cityTargets : List CityTarget)
    (lookup : Int → ApiAnswer ProfileBody)
    (putOracle : Int → Nat → GeoPutResult) : List Int → Trace Unit
  | [] => ⟨(), [], [], []⟩
  | i :: rest =>
    let p := getProfileIdForLineItem token i (lookup i)
    let head : Trace Unit :=
      match p.value with
      | none =>
        ⟨(), p.requests, p.logs, p.msgs ++
          [Msg.err ("Profile ID not found for Line Item ID: " ++
            toString i)]⟩
      | some pid =>
        if pid = 0 then
          ⟨(), p.requests, p.logs, p.msgs ++
            [Msg.err ("Profile ID not found for Line Item ID: " ++
              toString i)]⟩
        else
          let g := retriedGeoUpdate token pid cityTargets (putOracle i)
          let report :=
            match g.value with
            | BodyOut.ret true =>
              [Msg.good ("Geo targeting updated for Line Item ID: " ++
                toString i)]
            | _ =>
              [Msg.err ("Failed to update geo targeting for Line Item ID: " ++
                toString i)]
          ⟨(), p.requests ++ g.requests, p.logs ++ g.logs,
            p.msgs ++ g.msgs ++ report⟩
    let t := geoBatch token cityTargets lookup putOracle rest
    ⟨(), head.requests ++ t.requests, head.logs ++ t.logs,
      head.msgs ++ t.msgs⟩

/-- Claim C3, counterexample: a transport failure and a successful fetch
with zero matching cities both make get_cities_for_country return the
same value None — the zero-match outcome is NOT distinguishable from the
error outcome in the returned value (they differ only in the kind of
message shown). -/
theorem cities_none_indistinct_c3 :
    (getCitiesForCountry "tok" "Sweden"
        (ApiAnswer.transportFail "timeout")).value = none ∧
    (getCitiesForCountry "tok" "Sweden"
        (ApiAnswer.parsed (some ([] : List CityRec)) "raw")).value = none ∧
    (getCitiesForCountry "tok" "Sweden"
        (ApiAnswer.transportFail "timeout")).value =
      (getCitiesForCountry "tok" "Sweden"
        (ApiAnswer.parsed (some ([] : List CityRec)) "raw")).value := by
  refine ⟨rfl, rfl, rfl⟩

/-- Claim C3, amended: get_cities_for_country returns only cities whose
country field equals the input case-insensitively after trimming both
sides; when zero cities match it returns None — the same value as the
transport/malformed error cases — and the no-match case is marked only by
a warning message where the error cases emit an error message. -/
theorem cities_filter_c3_amended :
    (∀ (token country raw : String) (cs : List CityRec) (t : CityTarget),
      t ∈ ((getCitiesForCountry token country
          (ApiAnswer.parsed (some cs) raw)).value).getD [] →
      ∃ c, c ∈ cs ∧
        pyLower (pyStrip c.country_name) = pyLower (pyStrip country) ∧
        t = CityTarget.mk c.id c.name) ∧
    (∀ (token country raw : String) (cs : List CityRec),
      cs.filter (fun c =>
        pyLower (pyStrip c.country_name) = pyLower (pyStrip country)) = [] →
      (getCitiesForCountry token country
          (ApiAnswer.parsed (some cs) raw)).value = none ∧
      (getCitiesForCountry token country
          (ApiAnswer.parsed (some cs) raw)).msgs =
        [Msg.warn ("No active cities found for country: " ++ country ++
          ".")]) ∧
    (∀ (token country e : String),
      (getCitiesForCountry token country
          (ApiAnswer.transportFail e)).value = none ∧
      (getCitiesForCountry token country
          (ApiAnswer.transportFail e)).msgs =
        [Msg.err ("API request failed: " ++ e)]) := by
  refine ⟨?_, ?_, ?_⟩
  · intro token country raw cs t ht
    by_cases he : ((cs.filter (fun c =>
        pyLower (pyStrip c.country_name) ==
          pyLower (pyStrip country))).map
          (fun c => CityTarget.mk c.id c.name)).isEmpty
    · simp [getCitiesForCountry, he] at ht
    · simp [getCitiesForCountry, he] at ht
      obtain ⟨c, ⟨hcs, hmatch⟩, heq⟩ := ht
      exact ⟨c, hcs, hmatch, heq.symm⟩
  · intro token country raw cs h
    have hb : cs.filter (fun c =>
        pyLower (pyStrip c.country_name) == pyLower (pyStrip country)) = [] := by
      simpa using h
    constructor <;> simp [getCitiesForCountry, hb]
  · intro token country e
    exact ⟨rfl, rfl⟩

/-- Witness for the amended C3 at concrete inputs: a matching city is
traced back to a matching record; a zero-match fetch yields None with a
warning; a transport failure yields None with an error. -/
theorem cities_filter_c3_amended_witness :
    (∃ c, c ∈ [CityRec.mk 1 "Stockholm" " Sweden "] ∧
      pyLower (pyStrip c.country_name) = pyLower (pyStrip "sweden ") ∧
      CityTarget.mk 1 "Stockholm" = CityTarget.mk c.id c.name) ∧
    ((getCitiesForCountry "tok" "France"
        (ApiAnswer.parsed (some [CityRec.mk 1 "Stockholm" " Sweden "])
          "raw")).value = none ∧
      (getCitiesForCountry "tok" "France"
        (ApiAnswer.parsed (some [CityRec.mk 1 "Stockholm" " Sweden "])
          "raw")).msgs =
        [Msg.warn ("No active cities found for country: " ++ "France" ++
          ".")]) ∧
    ((getCitiesForCountry "tok" "Sweden"
        (ApiAnswer.transportFail "timeout")).value = none ∧
      (getCitiesForCountry "tok" "Sweden"
        (ApiAnswer.transportFail "timeout")).msgs =
        [Msg.err ("API request failed: " ++ "timeout")]) :=
  ⟨cities_filter_c3_amended.1 "tok" "sweden " "raw"
      [CityRec.mk 1 "Stockholm" " Sweden "] (CityTarget.mk 1 "Stockholm")
      (by decide),
    cities_filter_c3_amended.2.1 "tok" "France" "raw"
      [CityRec.mk 1 "Stockholm" " Sweden "] (by decide),
    cities_filter_c3_amended.2.2 "tok" "Sweden" "timeout"⟩

/-- Profile answers of the C5 scenario: line item 111's lookup fails with
a transport error, line item 222 resolves to profile 777. -/
def c5Lookup : Int → ApiAnswer ProfileBody := fun i =>
  if i = 222 then ApiAnswer.parsed (some 777) "ok"
  else ApiAnswer.transportFail "timeout"

/-- PUT answers of the C5 scenario: every geo PUT succeeds. -/
def c5PutOracle : Int → Nat → GeoPutResult := fun _ _ => GeoPutResult.ok

/-- Claim C5: the geo batch loop treats each line item independently — a
failed profile lookup only adds that item's failure messages and the loop
continues with the remaining items (first conjunct, any environment); in
the concrete scenario with ids [111, 222] where 111's lookup fails and
222's succeeds, the reported outcomes are exactly one failure for 111 and
one success for 222, and exactly one PUT (to 222's profile 777) is
issued. -/
theorem geo_batch_c5 :
    (∀ (token : String) (targets : List CityTarget)
        (lookup : Int → ApiAnswer ProfileBody)
        (putOracle : Int → Nat → GeoPutResult) (i : Int) (rest : List Int),
      (getProfileIdForLineItem token i (lookup i)).value = none →
      (geoBatch token targets lookup putOracle (i :: rest)).msgs =
        ((getProfileIdForLineItem token i (lookup i)).msgs ++
          [Msg.err ("Profile ID not found for Line Item ID: " ++
            toString i)]) ++
          (geoBatch token targets lookup putOracle rest).msgs ∧
      (geoBatch token targets lookup putOracle (i :: rest)).requests =
        (getProfileIdForLineItem token i (lookup i)).requests ++
          (geoBatch token targets lookup putOracle rest).requests) ∧
    (geoBatch "tok" [] c5Lookup c5PutOracle [111, 222]).msgs =
      [Msg.err "API request failed: timeout",
       Msg.err "Profile ID not found for Line Item ID: 111",
       Msg.good "Geo targeting updated for Line Item ID: 222"] ∧
    (geoBatch "tok" [] c5Lookup c5PutOracle [111, 222]).requests.filter
        (fun r => r.method == "PUT") =
      [Req.mk "PUT" (baseUrl ++ "/profile?id=777") "tok"] := by
  refine ⟨?_, ?_, ?_⟩
  · intro token targets lookup putOracle i rest h
    constructor <;> simp [geoBatch, h]
  · rfl
  · rfl

/-- Witness for C5's independence conjunct at the concrete scenario:
111's failed lookup contributes exactly its per-item failure messages in
front of the rest of the batch. -/
theorem geo_batch_c5_witness :
    (geoBatch "tok" [] c5Lookup c5PutOracle [111, 222]).msgs =
      ((getProfileIdForLineItem "tok" 111 (c5Lookup 111)).msgs ++
        [Msg.err ("Profile ID not found for Line Item ID: " ++
          toString (111 : Int))]) ++
        (geoBatch "tok" [] c5Lookup c5PutOracle [222]).msgs ∧
    (geoBatch "tok" [] c5Lookup c5PutOracle [111, 222]).requests =
      (getProfileIdForLineItem "tok" 111 (c5Lookup 111)).requests ++
        (geoBatch "tok" [] c5Lookup c5PutOracle [222]).requests :=
  geo_batch_c5.1 "tok" [] c5Lookup c5PutOracle 111 [222] rfl

/-- Environment's answer to one status GET in the polling loop: the
request raised (any Exception, caught at lines 251-254), or a parsed
status body whose execution_status field is execStatus (none when the key
is absent). -/
inductive GetStatus where
  | exn (e : String)
  | ok (execStatus : Option String) (raw : String)
  deriving DecidableEq

/-- Terminal state of the report poll/download flow. -/
inductive ReportOutcome where
  | ready
  | errored
  | timedOut
  | pollFailed
  | downloadFailed
  deriving DecidableEq

/-- Observable trace of the polling phase and the download step: terminal
outcome, number of status GETs, the sleeps performed (time-units), number
of download GETs attempted, plus requests/logs/messages. -/
structure PollTrace where
  outcome : ReportOutcome
  statusGets : Nat
  sleeps : List Nat
  downloads : Nat
  requests : List Req
  logs : List String
  msgs : List Msg
  deriving DecidableEq

/-- The polling loop of generate_and_poll_report (src/XandrAPI.py lines
236-257), by remaining attempts: while retries < max_retries, GET the
status; "ready" breaks out, "error" reports and returns, an exception
reports and returns, anything else sleeps 5 time-units and consumes one
attempt; exhausting the attempts reports a timeout (the while/else). -/
def pollAux (token reportId : String) (oracle : Nat → GetStatus) :
    Nat → Nat → PollTrace
  | 0, _ =>
    ⟨ReportOutcome.timedOut, 0, [], 0, [], [],
      [Msg.err "Report generation timed out. Please try again later."]⟩
  | n + 1, k =>
    let url := baseUrl ++ "/report?id=" ++ reportId
    let req := Req.mk "GET" url token
    match oracle k with
    | GetStatus.exn e =>
      ⟨ReportOutcome.pollFailed, 1, [], 0, [req],
        ["Error while polling report status: " ++ e],
        [Msg.err ("An error occurred while checking report status: " ++ e)]⟩
    | GetStatus.ok s raw =>
      if s = some "ready" then
        ⟨ReportOutcome.ready, 1, [], 0, [req], [], []⟩
      else if s = some "error" then
        ⟨ReportOutcome.errored, 1, [], 0, [req],
          ["Report generation error: " ++ raw],
          [Msg.err "An error occurred while generating the report."]⟩
      else
        let t := pollAux token reportId oracle n (k + 1)
        ⟨t.outcome, t.statusGets + 1, 5 :: t.sleeps, t.downloads,
          req :: t.requests, t.logs, t.msgs⟩

/-- max_retries = 10 in the polling loop. -/
def maxRetries : Nat := 10

/-- Environment's answer to the report-download GET. -/
inductive DownloadResult where
  | ok
  | exn (e : String)
  deriving DecidableEq

/-- Polling followed by the download step (lines 259-279): only a loop
that broke out on "ready" reaches the download GET. -/
def pollAndDownload (token reportId : String) (oracle : Nat → GetStatus)
    (dl : DownloadResult) : PollTrace :=
  let t := pollAux token reportId oracle maxRetries 0
  if t.outcome = ReportOutcome.ready then
    let durl := baseUrl ++ "/report-download?id=" ++ reportId
    let dreq := Req.mk "GET" durl token
    match dl with
    | DownloadResult.ok =>
      ⟨ReportOutcome.ready, t.statusGets, t.sleeps, 1,
        t.requests ++ [dreq], t.logs,
        t.msgs ++ [Msg.good "Report downloaded successfully!"]⟩
    | DownloadResult.exn e =>
      ⟨ReportOutcome.downloadFailed, t.statusGets, t.sleeps, 1,
        t.requests ++ [dreq],
        t.logs ++ ["Error while downloading the report: " ++ e],
        t.msgs ++
          [Msg.err ("An error occurred while downloading the report: " ++ e)]⟩
  else t

/-- A status GET that succeeded but reported neither "ready" nor
"error". -/
def nonTerminalOk (g : GetStatus) : Prop :=
  ∃ s raw, g = GetStatus.ok s raw ∧ s ≠ some "ready" ∧ s ≠ some "error"

/-- A run whose first n status answers are all non-terminal performs
exactly n GETs, sleeps 5 time-units after each of them, downloads
nothing and times out. -/
theorem pollAux_timeout (token reportId : String)
    (oracle : Nat → GetStatus) :
    ∀ (n k : Nat), (∀ j, j < n → nonTerminalOk (oracle (k + j))) →
      (pollAux token reportId oracle n k).outcome =
        ReportOutcome.timedOut ∧
      (pollAux token reportId oracle n k).statusGets = n ∧
      (pollAux token reportId oracle n k).sleeps = List.replicate n 5 ∧
      (pollAux token reportId oracle n k).downloads = 0 := by
  intro n
  induction n with
  | zero => intro k h; exact ⟨rfl, rfl, rfl, rfl⟩
  | succ m ih =>
    intro k h
    obtain ⟨s, raw, hk0, hs1, hs2⟩ := h 0 (Nat.succ_pos m)
    have hk : oracle k = GetStatus.ok s raw := by simpa using hk0
    have ihk := ih (k + 1) (fun j hj => by
      rw [show k + 1 + j = k + (j + 1) by omega]
      exact h (j + 1) (by omega))
    simp [pollAux, hk, hs1, hs2, ihk.1, ihk.2.1, ihk.2.2.1, ihk.2.2.2,
      List.replicate_succ]

/-- Claim C2: when the status GET never reports "ready" or "error" within
the attempt budget, the report flow performs exactly 10 poll attempts,
sleeps a fixed 5 time-units after each, ends timed-out and performs no
download. -/
theorem poll_timeout_c2 (token reportId : String)
    (oracle : Nat → GetStatus) (dl : DownloadResult)
    (h : ∀ j, j < maxRetries → nonTerminalOk (oracle j)) :
    (pollAndDownload token reportId oracle dl).outcome =
      ReportOutcome.timedOut ∧
    (pollAndDownload token reportId oracle dl).statusGets = 10 ∧
    (pollAndDownload token reportId oracle dl).sleeps =
      List.replicate 10 5 ∧
    (pollAndDownload token reportId oracle dl).downloads = 0 := by
  have ht := pollAux_timeout token reportId oracle maxRetries 0
    (fun j hj => by simpa using h j hj)
  have hcond : (pollAux token reportId oracle maxRetries 0).outcome ≠
      ReportOutcome.ready := by
    rw [ht.1]
    exact fun hc => ReportOutcome.noConfusion hc
  simp only [pollAndDownload, if_neg hcond]
  exact ⟨ht.1, ht.2.1, ht.2.2.1, ht.2.2.2⟩

/-- A status environment that forever answers "pending". -/
def pendingOracle : Nat → GetStatus :=
  fun _ => GetStatus.ok (some "pending") "raw"

/-- Witness for C2: with a forever-"pending" environment the flow times
out after exactly 10 polls, 10 sleeps of 5, and zero downloads. -/
theorem poll_timeout_c2_witness :
    (pollAndDownload "tok" "42" pendingOracle DownloadResult.ok).outcome =
      ReportOutcome.timedOut ∧
    (pollAndDownload "tok" "42" pendingOracle
      DownloadResult.ok).statusGets = 10 ∧
    (pollAndDownload "tok" "42" pendingOracle DownloadResult.ok).sleeps =
      List.replicate 10 5 ∧
    (pollAndDownload "tok" "42" pendingOracle
      DownloadResult.ok).downloads = 0 :=
  poll_timeout_c2 "tok" "42" pendingOracle DownloadResult.ok
    (fun j hj => ⟨some "pending", "raw", rfl, by decide, by decide⟩)

/-- A run whose first j status answers are non-terminal and whose answer
at attempt j is "error" exits on that attempt with the errored outcome,
having performed j+1 GETs and no download. -/
theorem pollAux_error (token reportId : String)
    (oracle : Nat → GetStatus) :
    ∀ (j n k : Nat) (raw : String), j < n →
      oracle (k + j) = GetStatus.ok (some "error") raw →
      (∀ i, i < j → nonTerminalOk (oracle (k + i))) →
      (pollAux token reportId oracle n k).outcome =
        ReportOutcome.errored ∧
      (pollAux token reportId oracle n k).statusGets = j + 1 ∧
      (pollAux token reportId oracle n k).downloads = 0 := by
  intro j
  induction j with
  | zero =>
    intro n k raw hj he hpre
    obtain ⟨m, rfl⟩ : ∃ m, n = m + 1 := ⟨n - 1, by omega⟩
    have he0 : oracle k = GetStatus.ok (some "error") raw := by
      simpa using he
    simp [pollAux, he0]
  | succ i ih =>
    intro n k raw hj he hpre
    obtain ⟨m, rfl⟩ : ∃ m, n = m + 1 := ⟨n - 1, by omega⟩
    obtain ⟨s, raw0, hk0, hs1, hs2⟩ := hpre 0 (Nat.succ_pos i)
    have hk : oracle k = GetStatus.ok s raw0 := by simpa using hk0
    have hrec := ih m (k + 1) raw (by omega)
      (by rw [show k + 1 + i = k + (i + 1) by omega]; exact he)
      (fun i2 hi2 => by
        rw [show k + 1 + i2 = k + (i2 + 1) by omega]
        exact hpre (i2 + 1) (by omega))
    simp [pollAux, hk, hs1, hs2, hrec.1, hrec.2.1, hrec.2.2]

/-- Claim C6: if some status GET within the attempt budget reports
"error" (all earlier attempts being non-terminal), the flow exits on that
very attempt with the errored outcome and the download GET is never
performed. -/
theorem poll_error_c6 (token reportId : String)
    (oracle : Nat → GetStatus) (dl : DownloadResult) (j : Nat)
    (raw : String) (hj : j < maxRetries)
    (he : oracle j = GetStatus.ok (some "error") raw)
    (hpre : ∀ i, i < j → nonTerminalOk (oracle i)) :
    (pollAndDownload token reportId oracle dl).outcome =
      ReportOutcome.errored ∧
    (pollAndDownload token reportId oracle dl).statusGets = j + 1 ∧
    (pollAndDownload token reportId oracle dl).downloads = 0 := by
  have ht := pollAux_error token reportId oracle j maxRetries 0 raw hj
    (by simpa using he) (fun i hi => by simpa using hpre i hi)
  have hcond : (pollAux token reportId oracle maxRetries 0).outcome ≠
      ReportOutcome.ready := by
    rw [ht.1]
    exact fun hc => ReportOutcome.noConfusion hc
  simp only [pollAndDownload, if_neg hcond]
  exact ht

/-- A status environment answering "pending" twice, then "error". -/
def errorAtTwoOracle : Nat → GetStatus := fun k =>
  if k < 2 then GetStatus.ok (some "pending") "raw"
  else GetStatus.ok (some "error") "boom"

/-- Witness for C6: pending, pending, then error exits after exactly 3
GETs with the errored outcome and no download. -/
theorem poll_error_c6_witness :
    (pollAndDownload "tok" "42" errorAtTwoOracle
      DownloadResult.ok).outcome = ReportOutcome.errored ∧
    (pollAndDownload "tok" "42" errorAtTwoOracle
      DownloadResult.ok).statusGets = 2 + 1 ∧
    (pollAndDownload "tok" "42" errorAtTwoOracle
      DownloadResult.ok).downloads = 0 :=
  poll_error_c6 "tok" "42" errorAtTwoOracle DownloadResult.ok 2 "boom"
    (by decide) (by decide)
    (fun i hi =>
      ⟨some "pending", "raw", by simp [errorAtTwoOracle, hi], by decide,
        by decide⟩)

/-- The POST body built by authenticate (src/XandrAPI.py line 193): an
f-string that splices username and password verbatim between literal
quotes, with no escaping of any kind. -/
def pyCredentials (u p : String) : String :=
  "\x7b\"auth\": \x7b\"username\": \"" ++ u ++ "\", \"password\": \"" ++
    p ++ "\"\x7d\x7d"

/-- Lower-case hexadecimal digit. -/
def hexDigit (n : Nat) : Char :=
  if n < 10 then Char.ofNat (48 + n) else Char.ofNat (87 + n)

/-- JSON escaping of one character inside a string literal. -/
def jsonEscapeChar (c : Char) : List Char :=
  if c = '"' then ['\\', '"']
  else if c = '\\' then ['\\', '\\']
  else if c = '\n' then ['\\', 'n']
  else if c = '\r' then ['\\', 'r']
  else if c = '\t' then ['\\', 't']
  else if c.toNat < 32 then
    ['\\', 'u', '0', '0', hexDigit (c.toNat / 16), hexDigit (c.toNat % 16)]
  else [c]

/-- Modelled from the claim: the well-formed JSON encoding of a string —
its characters escaped, wrapped in quotes. -/
def jsonEncodeString (s : String) : String :=
  "\"" ++ String.mk (s.data.flatMap jsonEscapeChar) ++ "\""

/-- Modelled from the claim: the well-formed JSON encoding of the object
auth.username/auth.password holding exactly the two input strings. -/
def jsonAuthBody (u p : String) : String :=
  "\x7b\"auth\": \x7b\"username\": " ++ jsonEncodeString u ++
    ", \"password\": " ++ jsonEncodeString p ++ "\x7d\x7d"

/-- Claim C9, counterexample: for a username containing a double quote the
body authenticate sends is NOT the JSON encoding of the credentials — the
quote is spliced in raw, producing a malformed body. -/
theorem auth_body_c9_counterexample :
    pyCredentials "a\"b" "p" ≠ jsonAuthBody "a\"b" "p" := by
  decide

/-- A character that JSON string encoding leaves unchanged: not a quote,
not a backslash, not a control character. -/
abbrev plainJsonChar (c : Char) : Prop :=
  c ≠ '"' ∧ c ≠ '\\' ∧ 32 ≤ c.toNat

/-- Plain characters are their own JSON escaping. -/
theorem jsonEscapeChar_plain (c : Char) (h : plainJsonChar c) :
    jsonEscapeChar c = [c] := by
  obtain ⟨h1, h2, h3⟩ := h
  have hn : c ≠ '\n' := by
    intro hc; subst hc; exact absurd h3 (by decide)
  have hr : c ≠ '\r' := by
    intro hc; subst hc; exact absurd h3 (by decide)
  have ht : c ≠ '\t' := by
    intro hc; subst hc; exact absurd h3 (by decide)
  have hc : ¬c.toNat < 32 := by omega
  simp [jsonEscapeChar, h1, h2, hn, hr, ht, hc]

/-- Escaping a list of plain characters is the identity. -/
theorem bind_jsonEscapeChar_plain (l : List Char)
    (h : ∀ c ∈ l, plainJsonChar c) : l.flatMap jsonEscapeChar = l := by
  induction l with
  | nil => rfl
  | cons c rest ih =>
    have hc := jsonEscapeChar_plain c (h c (List.mem_cons_self c rest))
    have hrest := ih (fun d hd => h d (List.mem_cons_of_mem c hd))
    simp [List.flatMap_cons, hc, hrest]

/-- JSON-encoding a string of plain characters just wraps it in quotes. -/
theorem jsonEncodeString_plain (s : String)
    (h : ∀ c ∈ s.data, plainJsonChar c) :
    jsonEncodeString s = "\"" ++ s ++ "\"" := by
  rw [jsonEncodeString, bind_jsonEscapeChar_plain s.data h]

/-- Claim C9, amended: authenticate's body equals the well-formed JSON
encoding of the credentials only for inputs free of quotes, backslashes
and control characters; on such inputs the raw splice and the encoding
agree (the counterexample shows they disagree once a quote appears). -/
theorem auth_body_c9_amended (u p : String)
    (hu : ∀ c ∈ u.data, plainJsonChar c)
    (hp : ∀ c ∈ p.data, plainJsonChar c) :
    pyCredentials u p = jsonAuthBody u p := by
  rw [jsonAuthBody, jsonEncodeString_plain u hu, jsonEncodeString_plain p hp,
    pyCredentials]
  apply String.ext
  simp [String.data_append]

/-- Witness for the amended C9 at concrete plain credentials. -/
theorem auth_body_c9_amended_witness :
    pyCredentials "alice" "hunter2" = jsonAuthBody "alice" "hunter2" :=
  auth_body_c9_amended "alice" "hunter2" (by decide) (by decide)

/-- The conversion-pixel body's return value, log records and messages do
not depend on the token (it reaches only the Authorization header). -/
theorem updateConversionPixel_token_obs (t1 t2 : String)
    (a l p : Int) (g : LineItemGet) (pr : PutResult) :
    (updateConversionPixel t1 a l p g pr).value =
      (updateConversionPixel t2 a l p g pr).value ∧
    (updateConversionPixel t1 a l p g pr).logs =
      (updateConversionPixel t2 a l p g pr).logs ∧
    (updateConversionPixel t1 a l p g pr).msgs =
      (updateConversionPixel t2 a l p g pr).msgs := by
  cases g with
  | transportFail e r => exact ⟨rfl, rfl, rfl⟩
  | invalidJson e => exact ⟨rfl, rfl, rfl⟩
  | okJson shape raw =>
    cases shape with
    | none => exact ⟨rfl, rfl, rfl⟩
    | some px => cases pr <;> exact ⟨rfl, rfl, rfl⟩

/-- The geo body's return value, log records and messages do not depend
on the token. -/
theorem updateLineItemProfileGeo_token_obs (t1 t2 : String) (pid : Int)
    (ts : List CityTarget) (pr : GeoPutResult) :
    (updateLineItemProfileGeo t1 pid ts pr).value =
      (updateLineItemProfileGeo t2 pid ts pr).value ∧
    (updateLineItemProfileGeo t1 pid ts pr).logs =
      (updateLineItemProfileGeo t2 pid ts pr).logs ∧
    (updateLineItemProfileGeo t1 pid ts pr).msgs =
      (updateLineItemProfileGeo t2 pid ts pr).msgs := by
  cases pr <;> exact ⟨rfl, rfl, rfl⟩

/-- Retrying preserves body-wise equality of value, logs and messages. -/
theorem tenacityTrace_obs (b1 b2 : Nat → Trace BodyOut)
    (hv : ∀ k, (b1 k).value = (b2 k).value)
    (hl : ∀ k, (b1 k).logs = (b2 k).logs)
    (hm : ∀ k, (b1 k).msgs = (b2 k).msgs) :
    ∀ n k, (tenacityTrace b1 n k).value = (tenacityTrace b2 n k).value ∧
      (tenacityTrace b1 n k).logs = (tenacityTrace b2 n k).logs ∧
      (tenacityTrace b1 n k).msgs = (tenacityTrace b2 n k).msgs := by
  intro n
  induction n with
  | zero => intro k; exact ⟨rfl, rfl, rfl⟩
  | succ m ih =>
    intro k
    cases hbv : (b1 k).value with
    | ret b =>
      have hbv2 : (b2 k).value = BodyOut.ret b := by rw [← hv k, hbv]
      simp [tenacityTrace, hbv, hbv2, hv k, hl k, hm k]
    | raised e =>
      have hbv2 : (b2 k).value = BodyOut.raised e := by rw [← hv k, hbv]
      cases m with
      | zero => simp [tenacityTrace, hbv, hbv2, hv k, hl k, hm k]
      | succ m2 =>
        have ihk := ih (k + 1)
        simp [tenacityTrace, hbv, hbv2, hl k, hm k, ihk.1, ihk.2.1,
          ihk.2.2]

/-- The retried geo mutator's value, logs and messages are
token-independent. -/
theorem retriedGeoUpdate_token_obs (t1 t2 : String) (pid : Int)
    (ts : List CityTarget) (oracle : Nat → GeoPutResult) :
    (retriedGeoUpdate t1 pid ts oracle).value =
      (retriedGeoUpdate t2 pid ts oracle).value ∧
    (retriedGeoUpdate t1 pid ts oracle).logs =
      (retriedGeoUpdate t2 pid ts oracle).logs ∧
    (retriedGeoUpdate t1 pid ts oracle).msgs =
      (retriedGeoUpdate t2 pid ts oracle).msgs :=
  tenacityTrace_obs _ _
    (fun k => (updateLineItemProfileGeo_token_obs t1 t2 pid ts (oracle k)).1)
    (fun k => (updateLineItemProfileGeo_token_obs t1 t2 pid ts (oracle k)).2.1)
    (fun k => (updateLineItemProfileGeo_token_obs t1 t2 pid ts (oracle k)).2.2)
    attemptLimit 0

/-- The retried pixel mutator's value, logs and messages are
token-independent. -/
theorem retriedPixelUpdate_token_obs (t1 t2 : String) (a l p : Int)
    (getOracle : Nat → LineItemGet) (putOracle : Nat → PutResult) :
    (retriedPixelUpdate t1 a l p getOracle putOracle).value =
      (retriedPixelUpdate t2 a l p getOracle putOracle).value ∧
    (retriedPixelUpdate t1 a l p getOracle putOracle).logs =
      (retriedPixelUpdate t2 a l p getOracle putOracle).logs ∧
    (retriedPixelUpdate t1 a l p getOracle putOracle).msgs =
      (retriedPixelUpdate t2 a l p getOracle putOracle).msgs :=
  tenacityTrace_obs _ _
    (fun k => (updateConversionPixel_token_obs t1 t2 a l p (getOracle k)
      (putOracle k)).1)
    (fun k => (updateConversionPixel_token_obs t1 t2 a l p (getOracle k)
      (putOracle k)).2.1)
    (fun k => (updateConversionPixel_token_obs t1 t2 a l p (getOracle k)
      (putOracle k)).2.2)
    attemptLimit 0

/-- The cities resolver's value, logs and messages are
token-independent. -/
theorem getCitiesForCountry_token_obs (t1 t2 country : String)
    (answer : ApiAnswer CityBody) :
    (getCitiesForCountry t1 country answer).value =
      (getCitiesForCountry t2 country answer).value ∧
    (getCitiesForCountry t1 country answer).logs =
      (getCitiesForCountry t2 country answer).logs ∧
    (getCitiesForCountry t1 country answer).msgs =
      (getCitiesForCountry t2 country answer).msgs := by
  cases answer with
  | transportFail e => exact ⟨rfl, rfl, rfl⟩
  | invalidJson e => exact ⟨rfl, rfl, rfl⟩
  | parsed shape raw =>
    cases shape with
    | none => exact ⟨rfl, rfl, rfl⟩
    | some cs =>
      by_cases he : ((cs.filter (fun c =>
          pyLower (pyStrip c.country_name) ==
            pyLower (pyStrip country))).map
            (fun c => CityTarget.mk c.id c.name)).isEmpty <;>
        simp [getCitiesForCountry, he]

/-- The profile resolver's value, logs and messages are
token-independent. -/
theorem getProfileIdForLineItem_token_obs (t1 t2 : String) (i : Int)
    (answer : ApiAnswer ProfileBody) :
    (getProfileIdForLineItem t1 i answer).value =
      (getProfileIdForLineItem t2 i answer).value ∧
    (getProfileIdForLineItem t1 i answer).logs =
      (getProfileIdForLineItem t2 i answer).logs ∧
    (getProfileIdForLineItem t1 i answer).msgs =
      (getProfileIdForLineItem t2 i answer).msgs := by
  cases answer with
  | transportFail e => exact ⟨rfl, rfl, rfl⟩
  | invalidJson e => exact ⟨rfl, rfl, rfl⟩
  | parsed shape raw => cases shape <;> exact ⟨rfl, rfl, rfl⟩

/-- The geo batch loop's logs and messages are token-independent. -/
theorem geoBatch_token_obs (t1 t2 : String) (ts : List CityTarget)
    (lookup : Int → ApiAnswer ProfileBody)
    (putOracle : Int → Nat → GeoPutResult) :
    ∀ ids, (geoBatch t1 ts lookup putOracle ids).logs =
        (geoBatch t2 ts lookup putOracle ids).logs ∧
      (geoBatch t1 ts lookup putOracle ids).msgs =
        (geoBatch t2 ts lookup putOracle ids).msgs := by
  intro ids
  induction ids with
  | nil => exact ⟨rfl, rfl⟩
  | cons i rest ih =>
    have hp := getProfileIdForLineItem_token_obs t1 t2 i (lookup i)
    cases hv : (getProfileIdForLineItem t1 i (lookup i)).value with
    | none =>
      have hv2 : (getProfileIdForLineItem t2 i (lookup i)).value = none := by
        rw [← hp.1, hv]
      simp [geoBatch, hv, hv2, hp.2.1, hp.2.2, ih.1, ih.2]
    | some pid =>
      have hv2 : (getProfileIdForLineItem t2 i (lookup i)).value =
          some pid := by
        rw [← hp.1, hv]
      by_cases hz : pid = 0
      · simp [geoBatch, hv, hv2, hz, hp.2.1, hp.2.2, ih.1, ih.2]
      · have hg := retriedGeoUpdate_token_obs t1 t2 pid ts (putOracle i)
        simp [geoBatch, hv, hv2, hz, hp.2.1, hp.2.2, hg.1, hg.2.1, hg.2.2,
          ih.1, ih.2]

/-- The polling loop's outcome, logs and messages are
token-independent. -/
theorem pollAux_token_obs (t1 t2 reportId : String)
    (oracle : Nat → GetStatus) :
    ∀ n k, (pollAux t1 reportId oracle n k).outcome =
        (pollAux t2 reportId oracle n k).outcome ∧
      (pollAux t1 reportId oracle n k).logs =
        (pollAux t2 reportId oracle n k).logs ∧
      (pollAux t1 reportId oracle n k).msgs =
        (pollAux t2 reportId oracle n k).msgs := by
  intro n
  induction n with
  | zero => intro k; exact ⟨rfl, rfl, rfl⟩
  | succ m ih =>
    intro k
    cases hk : oracle k with
    | exn e => simp [pollAux, hk]
    | ok s raw =>
      by_cases h1 : s = some "ready"
      · simp [pollAux, hk, h1]
      · by_cases h2 : s = some "error"
        · simp [pollAux, hk, h1, h2]
        · have ihk := ih (k + 1)
          simp [pollAux, hk, h1, h2, ihk.1, ihk.2.1, ihk.2.2]

/-- The full poll-and-download flow's logs and messages are
token-independent. -/
theorem pollAndDownload_token_obs (t1 t2 reportId : String)
    (oracle : Nat → GetStatus) (dl : DownloadResult) :
    (pollAndDownload t1 reportId oracle dl).logs =
      (pollAndDownload t2 reportId oracle dl).logs ∧
    (pollAndDownload t1 reportId oracle dl).msgs =
      (pollAndDownload t2 reportId oracle dl).msgs := by
  have hp := pollAux_token_obs t1 t2 reportId oracle maxRetries 0
  by_cases hr : (pollAux t1 reportId oracle maxRetries 0).outcome =
      ReportOutcome.ready
  · have hr2 : (pollAux t2 reportId oracle maxRetries 0).outcome =
        ReportOutcome.ready := by rw [← hp.1, hr]
    cases dl <;>
      simp [pollAndDownload, hr, hr2, hp.2.1, hp.2.2]
  · have hr2 : ¬(pollAux t2 reportId oracle maxRetries 0).outcome =
        ReportOutcome.ready := by rw [← hp.1]; exact hr
    simp [pollAndDownload, hr, hr2, hp.2.1, hp.2.2]

/-- Claim C8: for every modelled core operation (transport-backed
resolvers, both retry-wrapped updaters, the geo batch loop and the report
poll/download orchestration) and for every pair of token values, the
emitted log records and operator-visible messages are identical — the
bearer token value never flows into any log record or message (it reaches
only the Authorization header of the issued requests). -/
theorem token_never_logged_c8 :
    (∀ (t1 t2 : String) (a l p : Int) (g : LineItemGet) (pr : PutResult),
      (updateConversionPixel t1 a l p g pr).logs =
        (updateConversionPixel t2 a l p g pr).logs ∧
      (updateConversionPixel t1 a l p g pr).msgs =
        (updateConversionPixel t2 a l p g pr).msgs) ∧
    (∀ (t1 t2 : String) (pid : Int) (ts : List CityTarget)
        (pr : GeoPutResult),
      (updateLineItemProfileGeo t1 pid ts pr).logs =
        (updateLineItemProfileGeo t2 pid ts pr).logs ∧
      (updateLineItemProfileGeo t1 pid ts pr).msgs =
        (updateLineItemProfileGeo t2 pid ts pr).msgs) ∧
    (∀ (t1 t2 : String) (pid : Int) (ts : List CityTarget)
        (oracle : Nat → GeoPutResult),
      (retriedGeoUpdate t1 pid ts oracle).logs =
        (retriedGeoUpdate t2 pid ts oracle).logs ∧
      (retriedGeoUpdate t1 pid ts oracle).msgs =
        (retriedGeoUpdate t2 pid ts oracle).msgs) ∧
    (∀ (t1 t2 : String) (a l p : Int) (getOracle : Nat → LineItemGet)
        (putOracle : Nat → PutResult),
      (retriedPixelUpdate t1 a l p getOracle putOracle).logs =
        (retriedPixelUpdate t2 a l p getOracle putOracle).logs ∧
      (retriedPixelUpdate t1 a l p getOracle putOracle).msgs =
        (retriedPixelUpdate t2 a l p getOracle putOracle).msgs) ∧
    (∀ (t1 t2 country : String) (answer : ApiAnswer CityBody),
      (getCitiesForCountry t1 country answer).logs =
        (getCitiesForCountry t2 country answer).logs ∧
      (getCitiesForCountry t1 country answer).msgs =
        (getCitiesForCountry t2 country answer).msgs) ∧
    (∀ (t1 t2 : String) (i : Int) (answer : ApiAnswer ProfileBody),
      (getProfileIdForLineItem t1 i answer).logs =
        (getProfileIdForLineItem t2 i answer).logs ∧
      (getProfileIdForLineItem t1 i answer).msgs =
        (getProfileIdForLineItem t2 i answer).msgs) ∧
    (∀ (t1 t2 : String) (ts : List CityTarget)
        (lookup : Int → ApiAnswer ProfileBody)
        (putOracle : Int → Nat → GeoPutResult) (ids : List Int),
      (geoBatch t1 ts lookup putOracle ids).logs =
        (geoBatch t2 ts lookup putOracle ids).logs ∧
      (geoBatch t1 ts lookup putOracle ids).msgs =
        (geoBatch t2 ts lookup putOracle ids).msgs) ∧
    (∀ (t1 t2 reportId : String) (oracle : Nat → GetStatus)
        (dl : DownloadResult),
      (pollAndDownload t1 reportId oracle dl).logs =
        (pollAndDownload t2 reportId oracle dl).logs ∧
      (pollAndDownload t1 reportId oracle dl).msgs =
        (pollAndDownload t2 reportId oracle dl).msgs) := by
  refine ⟨?_, ?_, ?_, ?_, ?_, ?_, ?_, ?_⟩
  · intro t1 t2 a l p g pr
    exact ⟨(updateConversionPixel_token_obs t1 t2 a l p g pr).2.1,
      (updateConversionPixel_token_obs t1 t2 a l p g pr).2.2⟩
  · intro t1 t2 pid ts pr
    exact ⟨(updateLineItemProfileGeo_token_obs t1 t2 pid ts pr).2.1,
      (updateLineItemProfileGeo_token_obs t1 t2 pid ts pr).2.2⟩
  · intro t1 t2 pid ts oracle
    exact ⟨(retriedGeoUpdate_token_obs t1 t2 pid ts oracle).2.1,
      (retriedGeoUpdate_token_obs t1 t2 pid ts oracle).2.2⟩
  · intro t1 t2 a l p getOracle putOracle
    exact ⟨(retriedPixelUpdate_token_obs t1 t2 a l p getOracle
        putOracle).2.1,
      (retriedPixelUpdate_token_obs t1 t2 a l p getOracle putOracle).2.2⟩
  · intro t1 t2 country answer
    exact ⟨(getCitiesForCountry_token_obs t1 t2 country answer).2.1,
      (getCitiesForCountry_token_obs t1 t2 country answer).2.2⟩
  · intro t1 t2 i answer
    exact ⟨(getProfileIdForLineItem_token_obs t1 t2 i answer).2.1,
      (getProfileIdForLineItem_token_obs t1 t2 i answer).2.2⟩
  · intro t1 t2 ts lookup putOracle ids
    exact geoBatch_token_obs t1 t2 ts lookup putOracle ids
  · intro t1 t2 reportId oracle dl
    exact pollAndDownload_token_obs t1 t2 reportId oracle dl

end XandrTool
